import Mathlib

/-!
# Verification of the Energy-Management battery core

Shallow embedding of `energymanager/src/battery_optimizer.py`:

* timestamps are integer minutes on a single timeline whose day `0` is a
  Monday (the Python code never converts timezones inside the core: it
  compares `now.hour`/`now.minute`/`now.weekday()` of the datetime it is
  handed, so a linear minute count is a faithful model);
* energies are exact rationals (`ℚ`), mirroring the float formulas of the
  source symbolically;
* pandas DataFrames become lists of records, and the one raising pandas
  call (`set_index` on an empty frame) becomes an `Except`.
-/

namespace EnergyManagement

/-- One forecast slot: timestamp (minutes, day 0 = Monday) and the slot's
`net_energy_wh` column. -/
structure Slot where
  time : Int
  net_energy_wh : Rat
deriving Repr, DecidableEq

/-- One row appended to `results` in `BatteryOptimizer.simulate_soc`. -/
structure SimPoint where
  time : Int
  soc_percent : Rat
  soc_wh : Rat
  soc_wh_unclamped : Rat
  discharge_wh : Rat
deriving Repr, DecidableEq

/-- Placeholder record used with `List.getD` (never selected at in-range
indices). -/
def dummyPoint : SimPoint :=
  { time := 0, soc_percent := 0, soc_wh := 0, soc_wh_unclamped := 0, discharge_wh := 0 }

/-- Placeholder slot used with `List.getD`. -/
def dummySlot : Slot := { time := 0, net_energy_wh := 0 }

/-- The `BatteryOptimizer.__init__` configuration after parsing:
power limits are already converted to Wh per 15-minute slot, the tariff
clock strings are split into hour/minute, holidays are day numbers. -/
structure BatteryConfig where
  capacity_wh : Rat
  charge_efficiency : Rat
  discharge_efficiency : Rat
  max_charge_wh_per_15min : Rat
  max_discharge_wh_per_15min : Rat
  cheap_start_hour : Int
  cheap_start_minute : Int
  cheap_end_hour : Int
  cheap_end_minute : Int
  weekend_all_day_cheap : Bool
  holidays : List Int
deriving Repr, DecidableEq

/-- The constructor defaults: 10 kWh, 0.95 efficiency each way,
5000 W → 1250 Wh per 15 min, cheap window 21:00–06:00, weekends cheap,
no holidays. -/
def defaultConfig : BatteryConfig :=
  { capacity_wh := 10000
    charge_efficiency := 95 / 100
    discharge_efficiency := 95 / 100
    max_charge_wh_per_15min := 1250
    max_discharge_wh_per_15min := 1250
    cheap_start_hour := 21
    cheap_start_minute := 0
    cheap_end_hour := 6
    cheap_end_minute := 0
    weekend_all_day_cheap := true
    holidays := [] }

/-! ## Calendar arithmetic (Python `datetime` on the minute timeline) -/

/-- Day number of a timestamp (`dt.date()` as an integer; Python `//` is
floor division, hence `Int.ediv`). -/
def dayOf (t : Int) : Int := Int.ediv t 1440

/-- Midnight of the timestamp's day (`dt.replace(hour=0, minute=0, ...)`). -/
def dayStart (t : Int) : Int := 1440 * dayOf t

/-- Minutes past midnight. -/
def clockOf (t : Int) : Int := Int.emod t 1440

/-- `dt.hour`. -/
def hourOf (t : Int) : Int := Int.ediv (clockOf t) 60

/-- `dt.minute`. -/
def minuteOf (t : Int) : Int := Int.emod t 60

/-- `dt.weekday()`: Monday = 0 (day 0 of the timeline is a Monday). -/
def weekdayOf (t : Int) : Int := Int.emod (dayOf t) 7

/-- `now.replace(second=0, microsecond=0)` followed by
`now.replace(minute=(now.minute // 15) * 15)`. -/
def floorToSlot (t : Int) : Int :=
  dayStart t + 60 * hourOf t + 15 * Int.ediv (minuteOf t) 15

/-- `BatteryOptimizer.is_weekend`: Saturday = 5, Sunday = 6. -/
def is_weekend (t : Int) : Bool := decide (5 ≤ weekdayOf t)

/-- `BatteryOptimizer.is_holiday`. -/
def is_holiday (cfg : BatteryConfig) (t : Int) : Bool := cfg.holidays.contains (dayOf t)

/-- `BatteryOptimizer.is_cheap_day`. -/
def is_cheap_day (cfg : BatteryConfig) (t : Int) : Bool :=
  (cfg.weekend_all_day_cheap && is_weekend t) || is_holiday cfg t

/-- The `while self.is_cheap_day(check_day): check_day += timedelta(days=1)`
loop over day numbers.  The Python loop has no bound; ten years of fuel
covers every configuration whose holiday set does not blanket a whole
decade. -/
def nextNonCheapDay (cfg : BatteryConfig) : Nat → Int → Int
  | 0, d => d
  | Nat.succ fuel, d =>
    if is_cheap_day cfg (1440 * d) then nextNonCheapDay cfg fuel (d + 1) else d

def tariffFuel : Nat := 3653

/-- Result of `BatteryOptimizer.get_tariff_periods`. -/
structure TariffPeriod where
  cheap_start : Int
  cheap_end : Int
  target : Int
  is_cheap_now : Bool
deriving Repr, DecidableEq

/-- `BatteryOptimizer.get_tariff_periods`, translated clause by clause. -/
def get_tariff_periods (cfg : BatteryConfig) (now0 : Int) : TariffPeriod :=
  let now := floorToSlot now0
  let today := dayStart now
  if is_cheap_day cfg now then
    let check_day := nextNonCheapDay cfg tariffFuel (dayOf today + 1)
    { cheap_start := now
      cheap_end := 1440 * check_day + 60 * cfg.cheap_end_hour + cfg.cheap_end_minute
      target := 1440 * check_day + 60 * 21
      is_cheap_now := true }
  else
    let today_cheap_start := today + 60 * cfg.cheap_start_hour + cfg.cheap_start_minute
    let today_cheap_end := today + 60 * cfg.cheap_end_hour + cfg.cheap_end_minute
    if hourOf now < cfg.cheap_end_hour ∨
        (hourOf now = cfg.cheap_end_hour ∧ minuteOf now < cfg.cheap_end_minute) then
      -- before the morning cheap end: still in last night's cheap period
      { cheap_start := (today - 1440) + 60 * cfg.cheap_start_hour + cfg.cheap_start_minute
        cheap_end := today_cheap_end
        target := today + 60 * 21
        is_cheap_now := true }
    else if cfg.cheap_start_hour ≤ hourOf now then
      -- evening: in the cheap period (note: the source compares hours only)
      let tomorrow := today + 1440
      if is_cheap_day cfg tomorrow then
        let check_day := nextNonCheapDay cfg tariffFuel (dayOf tomorrow + 1)
        { cheap_start := today_cheap_start
          cheap_end := 1440 * check_day + 60 * cfg.cheap_end_hour + cfg.cheap_end_minute
          target := 1440 * check_day + 60 * 21
          is_cheap_now := true }
      else
        { cheap_start := today_cheap_start
          cheap_end := tomorrow + 60 * cfg.cheap_end_hour + cfg.cheap_end_minute
          target := tomorrow + 60 * 21
          is_cheap_now := true }
    else
      -- daytime expensive period
      { cheap_start := today_cheap_start
        cheap_end := (today + 1440) + 60 * cfg.cheap_end_hour + cfg.cheap_end_minute
        target := (today + 1440) + 60 * 21
        is_cheap_now := false }

/-! ## SOC simulation (`BatteryOptimizer.simulate_soc`) -/

/-- The per-iteration test
`block_until and (block_from is None or t >= block_from) and t < block_until`
(`block_until`/`block_from` are `None`-checked by Python truthiness). -/
def inBlockWindow (block_from block_until : Option Int) (t : Int) : Bool :=
  match block_until with
  | none => false
  | some u =>
    (match block_from with
     | none => true
     | some f => decide (f ≤ t)) && decide (t < u)

/-- The two running tallies of the simulation loop. -/
structure SimState where
  e_bat : Rat
  e_bat_unclamped : Rat
deriving Repr, DecidableEq

/-- One iteration of the `for t, row in forecast.iterrows()` loop: the
appended record (with its final `discharge_wh`) and the updated state. -/
def simulate_soc_step (cfg : BatteryConfig) (block_from block_until : Option Int)
    (st : SimState) (s : Slot) : SimPoint × SimState :=
  let point0 : SimPoint :=
    { time := s.time
      soc_percent := st.e_bat / cfg.capacity_wh * 100
      soc_wh := st.e_bat
      soc_wh_unclamped := st.e_bat_unclamped
      discharge_wh := 0 }
  let net_wh := s.net_energy_wh
  let discharge_blocked := inBlockWindow block_from block_until s.time
  if 0 < net_wh then
    -- surplus: charge battery
    let charge := min (net_wh * cfg.charge_efficiency)
      (min cfg.max_charge_wh_per_15min (cfg.capacity_wh - st.e_bat))
    ({ point0 with discharge_wh := 0 },
     { e_bat := st.e_bat + charge
       e_bat_unclamped :=
         min (st.e_bat_unclamped + net_wh * cfg.charge_efficiency) cfg.capacity_wh })
  else if discharge_blocked then
    -- deficit but blocked: don't discharge
    let discharge_needed := -net_wh / cfg.discharge_efficiency
    ({ point0 with discharge_wh := 0 },
     { e_bat := st.e_bat
       e_bat_unclamped := st.e_bat_unclamped - discharge_needed })
  else
    -- deficit: discharge battery
    let discharge_needed := -net_wh / cfg.discharge_efficiency
    let discharge := min discharge_needed
      (min cfg.max_discharge_wh_per_15min (max 0 st.e_bat))
    ({ point0 with discharge_wh := discharge_needed },
     { e_bat := max 0 (st.e_bat - discharge)
       e_bat_unclamped := st.e_bat_unclamped - discharge_needed })

/-- The simulation loop. -/
def simulate_soc_aux (cfg : BatteryConfig) (block_from block_until : Option Int) :
    SimState → List Slot → List SimPoint
  | _, [] => []
  | st, s :: rest =>
    (simulate_soc_step cfg block_from block_until st s).1 ::
      simulate_soc_aux cfg block_from block_until
        (simulate_soc_step cfg block_from block_until st s).2 rest

/-- The `results` list of `simulate_soc` (the rows of
`pd.DataFrame(results)` before `set_index`). -/
def simulate_soc_rows (cfg : BatteryConfig) (soc_percent : Rat) (forecast : List Slot)
    (block_from block_until : Option Int) : List SimPoint :=
  simulate_soc_aux cfg block_from block_until
    { e_bat := soc_percent / 100 * cfg.capacity_wh
      e_bat_unclamped := soc_percent / 100 * cfg.capacity_wh } forecast

/-- `BatteryOptimizer.simulate_soc` including its final
`pd.DataFrame(results).set_index("time")`: when `results` is empty the
DataFrame has no `time` column and pandas raises `KeyError`. -/
def simulate_soc (cfg : BatteryConfig) (soc_percent : Rat) (forecast : List Slot)
    (block_from block_until : Option Int) : Except String (List SimPoint) :=
  let rows := simulate_soc_rows cfg soc_percent forecast block_from block_until
  if rows.isEmpty then Except.error "KeyError: time" else Except.ok rows

/-! ## Decision engine (`BatteryOptimizer.calculate_decision`, the
deficit/accumulated-savings policy present in `src/`) -/

/-- `DischargeDecision` of `battery_optimizer.py` (interpolated numeric
values in `reason` strings are elided; only the fixed prefixes are kept). -/
structure DischargeDecision where
  discharge_allowed : Bool
  switch_on_time : Option Int
  reason : String
  deficit_wh : Rat
  saved_wh : Rat
deriving Repr, DecidableEq

/-- Step 4 of `calculate_decision`: accumulate savings over the cheap-period
rows, breaking at the first row whose running total reaches the deficit.
Returns `(saved_wh, switch_on_time)`; the default switch-on time is the end
of the cheap period. -/
def accumulate_savings (deficit_wh : Rat) (cheap_end : Int) :
    Rat → List SimPoint → Rat × Int
  | saved, [] => (saved, cheap_end)
  | saved, p :: rest =>
    let saved' := if 0 < p.discharge_wh then saved + p.discharge_wh else saved
    if deficit_wh ≤ saved' then (saved', p.time)
    else accumulate_savings deficit_wh cheap_end saved' rest

/-- `BatteryOptimizer.calculate_decision`.  The source also computes
`soc_at_cheap_start`, used only in a `logger.info` call, which is omitted
here; for a non-empty forecast its `simulate_soc` calls cannot hit the
empty-`set_index` error, so the row lists are used directly. -/
def calculate_decision (cfg : BatteryConfig) (soc_percent : Rat) (forecast : List Slot)
    (now : Int) : DischargeDecision × List SimPoint × List SimPoint :=
  let tariff := get_tariff_periods cfg now
  match forecast with
  | [] =>
    ({ discharge_allowed := true
       switch_on_time := none
       reason := "No forecast data"
       deficit_wh := 0
       saved_wh := 0 }, [], [])
  | f0 :: frest =>
    let fc := f0 :: frest
    let sim_full_no_strategy := simulate_soc_rows cfg soc_percent fc none none
    -- Step 2: unclamped SOC of the last row (`iloc[-1]`; the list is non-empty)
    let soc_at_target := (sim_full_no_strategy.map SimPoint.soc_wh_unclamped).getLastD 0
    let deficit_wh := max 0 (-soc_at_target)
    -- Step 3: comparison simulation blocking the whole cheap period
    let sim_full_with_strategy :=
      simulate_soc_rows cfg soc_percent fc (some tariff.cheap_start) (some tariff.cheap_end)
    if deficit_wh ≤ 0 then
      if tariff.is_cheap_now then
        ({ discharge_allowed := false
           switch_on_time := some tariff.cheap_end
           reason := "Cheap tariff - blocking to charge"
           deficit_wh := 0
           saved_wh := 0 }, sim_full_no_strategy, sim_full_with_strategy)
      else
        ({ discharge_allowed := true
           switch_on_time := none
           reason := "No deficit"
           deficit_wh := 0
           saved_wh := 0 }, sim_full_no_strategy, sim_full_with_strategy)
    else
      let forecast_cheap := sim_full_no_strategy.filter fun p =>
        decide (tariff.cheap_start ≤ p.time) && decide (p.time < tariff.cheap_end)
      let sw := accumulate_savings deficit_wh tariff.cheap_end 0 forecast_cheap
      let saved_wh := sw.1
      let switch_on_time := sw.2
      -- Step 5: strategy simulation blocked until the switch-on time
      let sim_full_with_strategy2 :=
        simulate_soc_rows cfg soc_percent fc (some tariff.cheap_start) (some switch_on_time)
      if !tariff.is_cheap_now then
        ({ discharge_allowed := true
           switch_on_time := some switch_on_time
           reason := "Expensive tariff - tonight block"
           deficit_wh := deficit_wh
           saved_wh := saved_wh }, sim_full_no_strategy, sim_full_with_strategy2)
      else if switch_on_time ≤ now then
        ({ discharge_allowed := true
           switch_on_time := some switch_on_time
           reason := "Cheap tariff - discharge enabled"
           deficit_wh := deficit_wh
           saved_wh := saved_wh }, sim_full_no_strategy, sim_full_with_strategy2)
      else
        ({ discharge_allowed := false
           switch_on_time := some switch_on_time
           reason := "Block discharge until switch-on"
           deficit_wh := deficit_wh
           saved_wh := saved_wh }, sim_full_no_strategy, sim_full_with_strategy2)

/-! ## The minimum-SOC-floor decision engine (FSD v2.6)

The spec (§4.3, §9) names the minimum-SOC-floor policy as the canonical
decision engine, and `tests/test_battery_optimizer.py` is written against
it (a `min_soc_percent` constructor argument, a three-field
`DischargeDecision` with `discharge_allowed`, `reason`, `min_soc_percent`,
reasons containing "SOC stays >=" / "Block").  That iteration of
`battery_optimizer.py` is not in `src/`; `src/battery_optimizer.py` holds
the superseded deficit/accumulated-savings policy, and `run.py` still uses
it.  The engine below is therefore modelled from the spec. -/

/-- Modelled from the spec: the v2.6 `DischargeDecision` (spec §3 and the
test file), absent from `src/`. -/
structure DischargeDecisionV2 where
  discharge_allowed : Bool
  reason : String
  min_soc_percent : Rat
deriving Repr, DecidableEq

/-- Modelled from the spec: "slots that fall within an expensive period on
a non-all-day-cheap day (the protected window)" (spec §4.3 step 4) — the
clock time lies in the weekday expensive interval
`[cheap_end, cheap_start)` and the day is not all-day cheap. -/
def in_protected_window (cfg : BatteryConfig) (t : Int) : Bool :=
  !is_cheap_day cfg t &&
    decide (60 * cfg.cheap_end_hour + cfg.cheap_end_minute ≤ clockOf t) &&
    decide (clockOf t < 60 * cfg.cheap_start_hour + cfg.cheap_start_minute)

/-- Modelled from the spec: "find the minimum SOC ... within that
restricted set.  If no such slots exist in the horizon, treat the minimum
as 100%" (spec §4.3 step 4). -/
def min_protected_soc (cfg : BatteryConfig) (traj : List SimPoint) : Rat :=
  match (traj.filter fun p => in_protected_window cfg p.time).map SimPoint.soc_percent with
  | [] => 100
  | x :: xs => xs.foldl min x

/-- Modelled from the spec: the v2.6 `calculate_decision` (spec §4.3, the
minimum-SOC-floor policy), absent from `src/`.  Steps: fail open on an
empty forecast; compute the tariff period; simulate unconstrained; take the
minimum projected SOC over the protected window; if not currently cheap,
always allow; otherwise allow iff that minimum is at or above the
configured floor, simulating a blocked trajectory
(`block_from = now`, `block_until = cheap_end`) when blocking. -/
def calculate_decision_v2 (cfg : BatteryConfig) (min_soc_percent : Rat)
    (soc_percent : Rat) (forecast : List Slot) (now : Int) :
    DischargeDecisionV2 × List SimPoint × List SimPoint :=
  match forecast with
  | [] =>
    ({ discharge_allowed := true
       reason := "No forecast data"
       min_soc_percent := 100 }, [], [])
  | f0 :: frest =>
    let fc := f0 :: frest
    let tariff := get_tariff_periods cfg now
    let sim := simulate_soc_rows cfg soc_percent fc none none
    let m := min_protected_soc cfg sim
    if !tariff.is_cheap_now then
      ({ discharge_allowed := true
         reason := "Expensive tariff - discharge allowed"
         min_soc_percent := m }, sim, sim)
    else if min_soc_percent ≤ m then
      ({ discharge_allowed := true
         reason := "SOC stays at or above the minimum during expensive hours"
         min_soc_percent := m }, sim, sim)
    else
      ({ discharge_allowed := false
         reason := "Block discharge - SOC would drop below the minimum"
         min_soc_percent := m },
       sim, simulate_soc_rows cfg soc_percent fc (some now) (some tariff.cheap_end))

/-! ## General lemmas about the simulation loop -/

theorem simulate_soc_aux_length (cfg : BatteryConfig) (bf bu : Option Int) :
    ∀ (forecast : List Slot) (st : SimState),
      (simulate_soc_aux cfg bf bu st forecast).length = forecast.length := by
  intro forecast
  induction forecast with
  | nil => intro st; rfl
  | cons s rest ih =>
    intro st
    simp [simulate_soc_aux, ih]

theorem simulate_soc_rows_length (cfg : BatteryConfig) (soc_percent : Rat)
    (forecast : List Slot) (bf bu : Option Int) :
    (simulate_soc_rows cfg soc_percent forecast bf bu).length = forecast.length := by
  unfold simulate_soc_rows
  exact simulate_soc_aux_length cfg bf bu forecast _

/-- The record appended by one loop iteration: every column except
`discharge_wh` snapshots the state at the start of the slot. -/
theorem simulate_soc_step_fst (cfg : BatteryConfig) (bf bu : Option Int)
    (st : SimState) (s : Slot) :
    (simulate_soc_step cfg bf bu st s).1.time = s.time ∧
    (simulate_soc_step cfg bf bu st s).1.soc_wh = st.e_bat ∧
    (simulate_soc_step cfg bf bu st s).1.soc_percent = st.e_bat / cfg.capacity_wh * 100 ∧
    (simulate_soc_step cfg bf bu st s).1.soc_wh_unclamped = st.e_bat_unclamped := by
  by_cases h1 : 0 < s.net_energy_wh <;>
    by_cases h2 : inBlockWindow bf bu s.time <;>
      simp [simulate_soc_step, h1, h2]

/-- The `discharge_wh` column of the appended record depends only on the
slot, not on the running state. -/
theorem simulate_soc_step_discharge (cfg : BatteryConfig) (bf bu : Option Int)
    (st : SimState) (s : Slot) :
    (simulate_soc_step cfg bf bu st s).1.discharge_wh =
      (if 0 < s.net_energy_wh then 0
       else if inBlockWindow bf bu s.time then 0
       else -s.net_energy_wh / cfg.discharge_efficiency) := by
  by_cases h1 : 0 < s.net_energy_wh <;>
    by_cases h2 : inBlockWindow bf bu s.time <;>
      simp [simulate_soc_step, h1, h2]

/-- Surplus slot: the clamped tally gains the triple-min charge. -/
theorem simulate_soc_step_ebat_surplus (cfg : BatteryConfig) (bf bu : Option Int)
    (st : SimState) (s : Slot) (h : 0 < s.net_energy_wh) :
    (simulate_soc_step cfg bf bu st s).2.e_bat =
      st.e_bat + min (s.net_energy_wh * cfg.charge_efficiency)
        (min cfg.max_charge_wh_per_15min (cfg.capacity_wh - st.e_bat)) := by
  simp [simulate_soc_step, h]

/-- Blocked deficit slot: the clamped tally is unchanged. -/
theorem simulate_soc_step_ebat_blocked (cfg : BatteryConfig) (bf bu : Option Int)
    (st : SimState) (s : Slot) (h : ¬0 < s.net_energy_wh)
    (hb : inBlockWindow bf bu s.time = true) :
    (simulate_soc_step cfg bf bu st s).2.e_bat = st.e_bat := by
  simp [simulate_soc_step, h, hb]

/-- Unblocked deficit slot: the clamped tally loses the capped discharge and
is floored at zero. -/
theorem simulate_soc_step_ebat_deficit (cfg : BatteryConfig) (bf bu : Option Int)
    (st : SimState) (s : Slot) (h : ¬0 < s.net_energy_wh)
    (hb : inBlockWindow bf bu s.time = false) :
    (simulate_soc_step cfg bf bu st s).2.e_bat =
      max 0 (st.e_bat - min (-s.net_energy_wh / cfg.discharge_efficiency)
        (min cfg.max_discharge_wh_per_15min (max 0 st.e_bat))) := by
  simp [simulate_soc_step, h, hb]

/-- Surplus slot: the "unclamped" tally is capped at capacity. -/
theorem simulate_soc_step_eU_surplus (cfg : BatteryConfig) (bf bu : Option Int)
    (st : SimState) (s : Slot) (h : 0 < s.net_energy_wh) :
    (simulate_soc_step cfg bf bu st s).2.e_bat_unclamped =
      min (st.e_bat_unclamped + s.net_energy_wh * cfg.charge_efficiency)
        cfg.capacity_wh := by
  simp [simulate_soc_step, h]

/-- Non-surplus slot (blocked or not): the "unclamped" tally always loses
the full needed discharge, with no floor. -/
theorem simulate_soc_step_eU_deficit (cfg : BatteryConfig) (bf bu : Option Int)
    (st : SimState) (s : Slot) (h : ¬0 < s.net_energy_wh) :
    (simulate_soc_step cfg bf bu st s).2.e_bat_unclamped =
      st.e_bat_unclamped - -s.net_energy_wh / cfg.discharge_efficiency := by
  by_cases hb : inBlockWindow bf bu s.time <;> simp [simulate_soc_step, h, hb]

/-- The `i`-th trajectory record carries the `i`-th slot's timestamp, and
its `discharge_wh` is a function of that slot alone. -/
theorem simulate_soc_aux_getD (cfg : BatteryConfig) (bf bu : Option Int) :
    ∀ (forecast : List Slot) (st : SimState) (i : Nat), i < forecast.length →
      ((simulate_soc_aux cfg bf bu st forecast).getD i dummyPoint).time =
        (forecast.getD i dummySlot).time ∧
      ((simulate_soc_aux cfg bf bu st forecast).getD i dummyPoint).discharge_wh =
        (if 0 < (forecast.getD i dummySlot).net_energy_wh then 0
         else if inBlockWindow bf bu (forecast.getD i dummySlot).time then 0
         else -(forecast.getD i dummySlot).net_energy_wh / cfg.discharge_efficiency) := by
  intro forecast
  induction forecast with
  | nil => intro st i h; simp at h
  | cons s rest ih =>
    intro st i h
    cases i with
    | zero =>
      refine ⟨?_, ?_⟩
      · simpa [simulate_soc_aux] using (simulate_soc_step_fst cfg bf bu st s).1
      · simpa [simulate_soc_aux] using simulate_soc_step_discharge cfg bf bu st s
    | succ j =>
      have hj : j < rest.length := by simpa using h
      simpa [simulate_soc_aux] using ih _ j hj

/-- Every trajectory record satisfies
`soc_percent = soc_wh / capacity_wh * 100`. -/
theorem simulate_soc_aux_percent (cfg : BatteryConfig) (bf bu : Option Int) :
    ∀ (forecast : List Slot) (st : SimState),
      ∀ p ∈ simulate_soc_aux cfg bf bu st forecast,
        p.soc_percent = p.soc_wh / cfg.capacity_wh * 100 := by
  intro forecast
  induction forecast with
  | nil => intro st p hp; simp [simulate_soc_aux] at hp
  | cons s rest ih =>
    intro st p hp
    rw [simulate_soc_aux] at hp
    rcases List.mem_cons.mp hp with rfl | hp
    · have hfst := simulate_soc_step_fst cfg bf bu st s
      rw [hfst.2.1, hfst.2.2.1]
    · exact ih _ p hp

/-- Invariant: from a clamped tally within `[0, capacity]`, every recorded
`soc_wh` stays within `[0, capacity]` (needs nonnegative efficiencies and
rate caps). -/
theorem simulate_soc_aux_ebat_bounds (cfg : BatteryConfig) (bf bu : Option Int)
    (hce : 0 ≤ cfg.charge_efficiency) (hde : 0 ≤ cfg.discharge_efficiency)
    (hmc : 0 ≤ cfg.max_charge_wh_per_15min) (hmd : 0 ≤ cfg.max_discharge_wh_per_15min) :
    ∀ (forecast : List Slot) (st : SimState), 0 ≤ st.e_bat → st.e_bat ≤ cfg.capacity_wh →
      ∀ p ∈ simulate_soc_aux cfg bf bu st forecast,
        0 ≤ p.soc_wh ∧ p.soc_wh ≤ cfg.capacity_wh := by
  intro forecast
  induction forecast with
  | nil => intro st h0 h1 p hp; simp [simulate_soc_aux] at hp
  | cons s rest ih =>
    intro st h0 h1 p hp
    rw [simulate_soc_aux] at hp
    rcases List.mem_cons.mp hp with rfl | hp
    · rw [(simulate_soc_step_fst cfg bf bu st s).2.1]
      exact ⟨h0, h1⟩
    · have hnext : 0 ≤ (simulate_soc_step cfg bf bu st s).2.e_bat ∧
          (simulate_soc_step cfg bf bu st s).2.e_bat ≤ cfg.capacity_wh := by
        by_cases hs : 0 < s.net_energy_wh
        · rw [simulate_soc_step_ebat_surplus cfg bf bu st s hs]
          have hlow : (0:Rat) ≤ min (s.net_energy_wh * cfg.charge_efficiency)
              (min cfg.max_charge_wh_per_15min (cfg.capacity_wh - st.e_bat)) :=
            le_min (mul_nonneg hs.le hce) (le_min hmc (by linarith))
          have hhigh : min (s.net_energy_wh * cfg.charge_efficiency)
              (min cfg.max_charge_wh_per_15min (cfg.capacity_wh - st.e_bat)) ≤
                cfg.capacity_wh - st.e_bat :=
            (min_le_right _ _).trans (min_le_right _ _)
          constructor <;> linarith
        · by_cases hb : inBlockWindow bf bu s.time
          · rw [simulate_soc_step_ebat_blocked cfg bf bu st s hs hb]
            exact ⟨h0, h1⟩
          · rw [simulate_soc_step_ebat_deficit cfg bf bu st s hs
              (Bool.not_eq_true _ ▸ hb)]
            have hdn : (0:Rat) ≤ -s.net_energy_wh / cfg.discharge_efficiency :=
              div_nonneg (by simpa using (not_lt.mp hs)) hde
            have hd0 : (0:Rat) ≤ min (-s.net_energy_wh / cfg.discharge_efficiency)
                (min cfg.max_discharge_wh_per_15min (max 0 st.e_bat)) :=
              le_min hdn (le_min hmd (le_max_left _ _))
            refine ⟨le_max_left _ _, ?_⟩
            have : st.e_bat - min (-s.net_energy_wh / cfg.discharge_efficiency)
                (min cfg.max_discharge_wh_per_15min (max 0 st.e_bat)) ≤ cfg.capacity_wh := by
              linarith
            exact max_le (by linarith) this
      exact ih _ hnext.1 hnext.2 p hp

/-! ## Claim theorems

Batteries marks the `Rat` field operations `@[irreducible]` so that `simp`
does not unfold them; the kernel treats them as ordinary definitions.  To
let `decide` evaluate concrete rational arithmetic they are restored to
the ordinary reducibility here. -/

set_option allowUnsafeReducibility true in
attribute [semireducible] Rat.mul Rat.add Rat.sub Rat.inv

/-- C3: for every starting SOC and every current time, `calculate_decision`
with an empty forecast returns (without raising) `discharge_allowed = true`,
the reason "No forecast data", and two empty trajectories. -/
theorem C3_empty_forecast_fail_open (cfg : BatteryConfig) (soc_percent : Rat) (now : Int) :
    (calculate_decision cfg soc_percent [] now).1.discharge_allowed = true ∧
    (calculate_decision cfg soc_percent [] now).1.reason = "No forecast data" ∧
    (calculate_decision cfg soc_percent [] now).2.1 = [] ∧
    (calculate_decision cfg soc_percent [] now).2.2 = [] :=
  ⟨rfl, rfl, rfl, rfl⟩

/-- C6: contrary to the claim, `simulate_soc` applied to an empty forecast
does not return an empty trajectory: its final
`pd.DataFrame(results).set_index("time")` raises `KeyError` because the
empty DataFrame has no `time` column, for every starting SOC and every
(possibly absent) block window. -/
theorem C6_empty_forecast_raises_keyerror (cfg : BatteryConfig) (soc_percent : Rat)
    (block_from block_until : Option Int) :
    simulate_soc cfg soc_percent [] block_from block_until =
      Except.error "KeyError: time" := rfl

/-- C4: with a positive capacity, nonnegative efficiencies and rate caps,
and a starting SOC in `[0, 100]`, every point of the clamped trajectory has
`soc_percent` within `[0, 100]`, for every forecast and block window. -/
theorem C4_clamped_trajectory_bounded (cfg : BatteryConfig) (soc_percent : Rat)
    (forecast : List Slot) (bf bu : Option Int)
    (hcap : 0 < cfg.capacity_wh)
    (hce : 0 ≤ cfg.charge_efficiency) (hde : 0 ≤ cfg.discharge_efficiency)
    (hmc : 0 ≤ cfg.max_charge_wh_per_15min) (hmd : 0 ≤ cfg.max_discharge_wh_per_15min)
    (h0 : 0 ≤ soc_percent) (h100 : soc_percent ≤ 100) :
    ∀ p ∈ simulate_soc_rows cfg soc_percent forecast bf bu,
      0 ≤ p.soc_percent ∧ p.soc_percent ≤ 100 := by
  intro p hp
  unfold simulate_soc_rows at hp
  have hinit0 : 0 ≤ soc_percent / 100 * cfg.capacity_wh :=
    mul_nonneg (div_nonneg h0 (by norm_num)) hcap.le
  have hinit1 : soc_percent / 100 * cfg.capacity_wh ≤ cfg.capacity_wh := by
    have h1 : soc_percent / 100 ≤ 1 := (div_le_one (by norm_num)).mpr h100
    nlinarith
  have hwh := simulate_soc_aux_ebat_bounds cfg bf bu hce hde hmc hmd forecast _ hinit0 hinit1 p hp
  have hpct := simulate_soc_aux_percent cfg bf bu forecast _ p hp
  rw [hpct]
  constructor
  · exact mul_nonneg (div_nonneg hwh.1 hcap.le) (by norm_num)
  · have h1 : p.soc_wh / cfg.capacity_wh ≤ 1 := (div_le_one hcap).mpr hwh.2
    nlinarith

/-- Witness for C4: default configuration, 50% SOC, one slot demanding far
more than the battery holds. -/
theorem C4_clamped_trajectory_bounded_witness :
    0 ≤ ((simulate_soc_rows defaultConfig 50 [⟨0, -10000⟩] none none).getD 0
        dummyPoint).soc_percent ∧
    ((simulate_soc_rows defaultConfig 50 [⟨0, -10000⟩] none none).getD 0
        dummyPoint).soc_percent ≤ 100 := by
  apply C4_clamped_trajectory_bounded defaultConfig 50 [⟨0, -10000⟩] none none
    (by decide) (by decide) (by decide) (by decide) (by decide) (by decide) (by decide)
  decide

/-- C5: inside a given block window `[block_from, block_until)` a deficit
slot discharges nothing, and a deficit slot at or after `block_until`
discharges by the standard formula
`-net_energy_wh / discharge_efficiency`. -/
theorem C5_block_window_suppresses_discharge (cfg : BatteryConfig) (soc_percent : Rat)
    (forecast : List Slot) (block_from block_until : Int) (i : Nat)
    (hi : i < forecast.length)
    (hdef : (forecast.getD i dummySlot).net_energy_wh ≤ 0) :
    (block_from ≤ (forecast.getD i dummySlot).time →
      (forecast.getD i dummySlot).time < block_until →
      ((simulate_soc_rows cfg soc_percent forecast (some block_from)
          (some block_until)).getD i dummyPoint).discharge_wh = 0) ∧
    (block_until ≤ (forecast.getD i dummySlot).time →
      ((simulate_soc_rows cfg soc_percent forecast (some block_from)
          (some block_until)).getD i dummyPoint).discharge_wh =
        -(forecast.getD i dummySlot).net_energy_wh / cfg.discharge_efficiency) := by
  have h := simulate_soc_aux_getD cfg (some block_from) (some block_until) forecast
    { e_bat := soc_percent / 100 * cfg.capacity_wh
      e_bat_unclamped := soc_percent / 100 * cfg.capacity_wh } i hi
  unfold simulate_soc_rows
  constructor
  · intro h1 h2
    have hb : inBlockWindow (some block_from) (some block_until)
        (forecast.getD i dummySlot).time = true := by
      show (decide (block_from ≤ (forecast.getD i dummySlot).time) &&
        decide ((forecast.getD i dummySlot).time < block_until)) = true
      rw [decide_eq_true h1, decide_eq_true h2]
      rfl
    rw [h.2, if_neg (not_lt.mpr hdef), if_pos hb]
  · intro h1
    have hb : inBlockWindow (some block_from) (some block_until)
        (forecast.getD i dummySlot).time = false := by
      show (decide (block_from ≤ (forecast.getD i dummySlot).time) &&
        decide ((forecast.getD i dummySlot).time < block_until)) = false
      rw [decide_eq_false (not_lt.mpr h1), Bool.and_false]
    rw [h.2, if_neg (not_lt.mpr hdef), if_neg (by rw [hb]; exact Bool.false_ne_true)]

/-- Witness for C5: default configuration, a deficit slot inside the window
is suppressed. -/
theorem C5_block_window_suppresses_discharge_witness :
    ((simulate_soc_rows defaultConfig 50 [⟨100, -100⟩] (some 0)
        (some 200)).getD 0 dummyPoint).discharge_wh = 0 :=
  (C5_block_window_suppresses_discharge defaultConfig 50 [⟨100, -100⟩] 0 200 0
    (by decide) (by decide)).1 (by decide) (by decide)

/-- C2: whenever the tariff period says the current time is not cheap (the
expensive window), `calculate_decision` on a non-empty forecast allows
discharge, for every starting SOC and forecast. -/
theorem C2_expensive_tariff_always_allows (cfg : BatteryConfig) (soc_percent : Rat)
    (forecast : List Slot) (now : Int) (hne : forecast ≠ [])
    (hexp : (get_tariff_periods cfg now).is_cheap_now = false) :
    (calculate_decision cfg soc_percent forecast now).1.discharge_allowed = true := by
  match forecast, hne with
  | f0 :: frest, _ =>
    simp only [calculate_decision, hexp, Bool.not_false, if_true]
    split
    · rfl
    · rfl

/-- Witness for C2: Monday noon (expensive) with a one-slot forecast. -/
theorem C2_expensive_tariff_always_allows_witness :
    (calculate_decision defaultConfig 50 [⟨720, 0⟩] 720).1.discharge_allowed = true :=
  C2_expensive_tariff_always_allows defaultConfig 50 [⟨720, 0⟩] 720
    (by decide) (by decide)

/-- The default configuration with the evening cheap start moved to 21:30,
exercising a non-zero configured start minute. -/
def halfPastConfig : BatteryConfig := { defaultConfig with cheap_start_minute := 30 }

/-- C8: counterexample to minute-granular tariff classification.  Monday
21:15 (minute 1275 of the timeline) lies strictly inside the configured
expensive window 06:00–21:30 of a non-cheap weekday, yet
`get_tariff_periods` reports `is_cheap_now = true`, because the source
compares `now.hour >= self.cheap_start_hour` and ignores
`cheap_start_minute`. -/
theorem C8_start_minute_ignored :
    is_cheap_day halfPastConfig 1275 = false ∧
    60 * halfPastConfig.cheap_end_hour + halfPastConfig.cheap_end_minute < clockOf 1275 ∧
    clockOf 1275 < 60 * halfPastConfig.cheap_start_hour + halfPastConfig.cheap_start_minute ∧
    (get_tariff_periods halfPastConfig 1275).is_cheap_now = true := by
  decide

/-- Invariant: the "unclamped" tally never exceeds the capacity once it is
at or below it, because the surplus branch caps it at `capacity_wh` and the
deficit branches only subtract (given a nonnegative discharge
efficiency). -/
theorem simulate_soc_aux_eU_le_capacity (cfg : BatteryConfig) (bf bu : Option Int)
    (hde : 0 ≤ cfg.discharge_efficiency) :
    ∀ (forecast : List Slot) (st : SimState), st.e_bat_unclamped ≤ cfg.capacity_wh →
      ∀ p ∈ simulate_soc_aux cfg bf bu st forecast,
        p.soc_wh_unclamped ≤ cfg.capacity_wh := by
  intro forecast
  induction forecast with
  | nil => intro st h p hp; simp [simulate_soc_aux] at hp
  | cons s rest ih =>
    intro st h p hp
    rw [simulate_soc_aux] at hp
    rcases List.mem_cons.mp hp with rfl | hp
    · rw [(simulate_soc_step_fst cfg bf bu st s).2.2.2]
      exact h
    · have hnext : (simulate_soc_step cfg bf bu st s).2.e_bat_unclamped ≤ cfg.capacity_wh := by
        by_cases hs : 0 < s.net_energy_wh
        · rw [simulate_soc_step_eU_surplus cfg bf bu st s hs]
          exact min_le_right _ _
        · rw [simulate_soc_step_eU_deficit cfg bf bu st s hs]
          have hdn : (0:Rat) ≤ -s.net_energy_wh / cfg.discharge_efficiency :=
            div_nonneg (by simpa using (not_lt.mp hs)) hde
          linarith
      exact ih _ hnext p hp

/-- C7 counterexample: with the default configuration, a full battery and a
1000 Wh surplus slot, the cumulative efficiency-adjusted surplus (950 Wh)
exceeds the remaining capacity (0 Wh), yet the next recorded
`soc_wh_unclamped` equals `capacity_wh` instead of exceeding it: the source
caps the "unclamped" tally at capacity in the surplus branch. -/
theorem C7_unclamped_surplus_capped_counterexample :
    defaultConfig.capacity_wh - 100 / 100 * defaultConfig.capacity_wh <
      1000 * defaultConfig.charge_efficiency ∧
    ((simulate_soc_rows defaultConfig 100 [⟨0, 1000⟩, ⟨15, 0⟩] none none).getD 1
        dummyPoint).soc_wh_unclamped = defaultConfig.capacity_wh ∧
    ¬ (defaultConfig.capacity_wh <
        ((simulate_soc_rows defaultConfig 100 [⟨0, 1000⟩, ⟨15, 0⟩] none none).getD 1
          dummyPoint).soc_wh_unclamped) := by
  decide

/-- C7 (amended): the unclamped tally applies the per-slot efficiency
arithmetic with no `max(0, ...)` floor on the deficit side — a deep deficit
drives it negative, as the second conjunct shows concretely — but the
surplus side is capped at `capacity_wh`, so (from a starting SOC of at most
100%, with nonnegative capacity and discharge efficiency) it never exceeds
`capacity_wh`. -/
theorem C7_unclamped_no_floor_but_capacity_capped (cfg : BatteryConfig)
    (soc_percent : Rat) (forecast : List Slot) (bf bu : Option Int)
    (hcap : 0 ≤ cfg.capacity_wh) (hde : 0 ≤ cfg.discharge_efficiency)
    (h100 : soc_percent ≤ 100) :
    (∀ p ∈ simulate_soc_rows cfg soc_percent forecast bf bu,
      p.soc_wh_unclamped ≤ cfg.capacity_wh) ∧
    ((simulate_soc_rows defaultConfig 0 [⟨0, -950⟩, ⟨15, 0⟩] none none).getD 1
        dummyPoint).soc_wh_unclamped < 0 := by
  constructor
  · intro p hp
    unfold simulate_soc_rows at hp
    have h1 : soc_percent / 100 ≤ 1 := (div_le_one (by norm_num)).mpr h100
    have hinit : soc_percent / 100 * cfg.capacity_wh ≤ cfg.capacity_wh := by
      calc soc_percent / 100 * cfg.capacity_wh ≤ 1 * cfg.capacity_wh :=
            mul_le_mul_of_nonneg_right h1 hcap
        _ = cfg.capacity_wh := one_mul _
    exact simulate_soc_aux_eU_le_capacity cfg bf bu hde forecast _ hinit p hp
  · decide

/-- Witness for C7 (amended) at the default configuration. -/
theorem C7_unclamped_no_floor_but_capacity_capped_witness :
    ((simulate_soc_rows defaultConfig 100 [⟨0, 2000⟩] none none).getD 0
        dummyPoint).soc_wh_unclamped ≤ defaultConfig.capacity_wh := by
  apply (C7_unclamped_no_floor_but_capacity_capped defaultConfig 100 [⟨0, 2000⟩]
    none none (by decide) (by decide) (by decide)).1
  decide

/-- "No charge or discharge cap is ever hit": along the unblocked
simulation from running clamped tally `e`, every surplus slot's
efficiency-adjusted charge fits under both the rate cap and the remaining
capacity, and every deficit slot's needed discharge fits under both the
rate cap and the available energy (so neither the triple-`min` nor the
`max(0, ...)` clamp bites). -/
def capsFreeB (cfg : BatteryConfig) : Rat → List Slot → Bool
  | _, [] => true
  | e, s :: rest =>
    if 0 < s.net_energy_wh then
      decide (s.net_energy_wh * cfg.charge_efficiency ≤ cfg.max_charge_wh_per_15min) &&
      decide (s.net_energy_wh * cfg.charge_efficiency ≤ cfg.capacity_wh - e) &&
      capsFreeB cfg (e + s.net_energy_wh * cfg.charge_efficiency) rest
    else
      decide (0 ≤ e) &&
      decide (-s.net_energy_wh / cfg.discharge_efficiency ≤ cfg.max_discharge_wh_per_15min) &&
      decide (-s.net_energy_wh / cfg.discharge_efficiency ≤ e) &&
      capsFreeB cfg (e - -s.net_energy_wh / cfg.discharge_efficiency) rest

/-- With both efficiencies equal to 1 and no cap or clamp hit, the recorded
`soc_wh` at index `i` is the starting energy plus the sum of the first `i`
slots' net energies (the `i`-th slot itself is not yet applied, because the
record is taken at the start of the slot). -/
theorem simulate_soc_aux_conservation (cfg : BatteryConfig)
    (hce : cfg.charge_efficiency = 1) (hde : cfg.discharge_efficiency = 1) :
    ∀ (forecast : List Slot) (e eU : Rat), capsFreeB cfg e forecast = true →
      ∀ i, i < forecast.length →
        ((simulate_soc_aux cfg none none { e_bat := e, e_bat_unclamped := eU }
            forecast).getD i dummyPoint).soc_wh =
          e + ((forecast.take i).map Slot.net_energy_wh).sum := by
  intro forecast
  induction forecast with
  | nil => intro e eU hcf i h; simp at h
  | cons s rest ih =>
    intro e eU hcf i h
    have hstep : (simulate_soc_step cfg none none
        { e_bat := e, e_bat_unclamped := eU } s).2.e_bat = e + s.net_energy_wh ∧
        capsFreeB cfg (e + s.net_energy_wh) rest = true := by
      rw [capsFreeB] at hcf
      by_cases hs : 0 < s.net_energy_wh
      · rw [if_pos hs] at hcf
        simp only [Bool.and_eq_true, decide_eq_true_eq] at hcf
        obtain ⟨⟨hc1, hc2⟩, hrest⟩ := hcf
        constructor
        · rw [simulate_soc_step_ebat_surplus cfg none none _ s hs,
            min_eq_left (le_min hc1 hc2), hce, mul_one]
        · rw [hce, mul_one] at hrest
          exact hrest
      · rw [if_neg hs] at hcf
        simp only [Bool.and_eq_true, decide_eq_true_eq] at hcf
        obtain ⟨⟨⟨he0, hd1⟩, hd2⟩, hrest⟩ := hcf
        have hblk : inBlockWindow none none s.time = false := rfl
        constructor
        · rw [simulate_soc_step_ebat_deficit cfg none none _ s hs hblk]
          have hmax : max 0 e = e := max_eq_right he0
          rw [hmax, min_eq_left (le_min hd1 (hmax ▸ hd2))]
          rw [hde] at hd2 ⊢
          rw [div_one] at hd2 ⊢
          rw [max_eq_right (by linarith)]
          ring
        · rw [hde, div_one] at hrest
          have : e - -s.net_energy_wh = e + s.net_energy_wh := by ring
          rw [this] at hrest
          exact hrest
    cases i with
    | zero =>
      rw [simulate_soc_aux]
      simpa using (simulate_soc_step_fst cfg none none _ s).2.1
    | succ j =>
      have hj : j < rest.length := by simpa using h
      have hsteta : (simulate_soc_step cfg none none
          { e_bat := e, e_bat_unclamped := eU } s).2 =
          ({ e_bat := e + s.net_energy_wh,
             e_bat_unclamped := (simulate_soc_step cfg none none
               { e_bat := e, e_bat_unclamped := eU } s).2.e_bat_unclamped } :
            SimState) := by
        rw [← hstep.1]
      rw [simulate_soc_aux, List.getD_cons_succ, hsteta,
        ih (e + s.net_energy_wh) _ hstep.2 j hj]
      simp [add_assoc]

/-- The default configuration with both efficiencies set to 1. -/
def effOneConfig : BatteryConfig :=
  { defaultConfig with charge_efficiency := 1, discharge_efficiency := 1 }

/-- C9 counterexample: a single-slot forecast at efficiency 1 with a 100 Wh
deficit and no cap hit.  The `soc_wh` at the end of the trajectory is the
starting 5000 Wh — the slot's own net energy is not yet applied — not
`starting + sum = 4900`. -/
theorem C9_record_before_update_counterexample :
    capsFreeB effOneConfig (50 / 100 * effOneConfig.capacity_wh) [⟨0, -100⟩] = true ∧
    ((simulate_soc_rows effOneConfig 50 [⟨0, -100⟩] none none).getD 0
        dummyPoint).soc_wh = 5000 ∧
    50 / 100 * effOneConfig.capacity_wh +
      (([⟨0, -100⟩] : List Slot).map Slot.net_energy_wh).sum = 4900 ∧
    ¬ (((simulate_soc_rows effOneConfig 50 [⟨0, -100⟩] none none).getD 0
        dummyPoint).soc_wh =
      50 / 100 * effOneConfig.capacity_wh +
        (([⟨0, -100⟩] : List Slot).map Slot.net_energy_wh).sum) := by
  decide

/-- C9 (amended): with both efficiencies 1 and no caps hit, the `soc_wh`
recorded at the end of the trajectory equals the starting energy plus the
sum of all slots' net energies except the last slot's (each record is taken
before its slot's energy is applied). -/
theorem C9_conservation_without_last_slot (cfg : BatteryConfig) (soc_percent : Rat)
    (forecast : List Slot) (hne : forecast ≠ [])
    (hce : cfg.charge_efficiency = 1) (hde : cfg.discharge_efficiency = 1)
    (hcf : capsFreeB cfg (soc_percent / 100 * cfg.capacity_wh) forecast = true) :
    ((simulate_soc_rows cfg soc_percent forecast none none).getD
        (forecast.length - 1) dummyPoint).soc_wh =
      soc_percent / 100 * cfg.capacity_wh +
        (forecast.dropLast.map Slot.net_energy_wh).sum := by
  have hlen : 0 < forecast.length := List.length_pos.mpr hne
  have h := simulate_soc_aux_conservation cfg hce hde forecast
    (soc_percent / 100 * cfg.capacity_wh) (soc_percent / 100 * cfg.capacity_wh)
    hcf (forecast.length - 1) (by omega)
  unfold simulate_soc_rows
  rw [h, List.dropLast_eq_take]

/-- Witness for C9 (amended): the counterexample input, where the amended
statement predicts exactly the starting 5000 Wh. -/
theorem C9_conservation_without_last_slot_witness :
    ((simulate_soc_rows effOneConfig 50 [⟨0, -100⟩] none none).getD 0
        dummyPoint).soc_wh =
      50 / 100 * effOneConfig.capacity_wh +
        (([⟨0, -100⟩] : List Slot).dropLast.map Slot.net_energy_wh).sum :=
  C9_conservation_without_last_slot effOneConfig 50 [⟨0, -100⟩]
    (by decide) (by decide) (by decide) (by decide)

/-- A clamped deficit step from a nonnegative tally simplifies to
`max (e - min dn maxD) 0`: the `max 0 e` inside the triple `min` and the
outer floor collapse. -/
theorem clamped_deficit_eq (e dn maxD : Rat) (he : 0 ≤ e) :
    max 0 (e - min dn (min maxD (max 0 e))) = max (e - min dn maxD) 0 := by
  rw [max_eq_right he, ← min_assoc]
  rcases le_total (min dn maxD) e with h | h
  · rw [min_eq_left h, max_comm]
  · rw [min_eq_right h, sub_self, max_self]
    symm
    exact max_eq_right (by linarith)

/-- One simulation step preserves nonnegativity of the clamped tally and is
monotone in it (for nonnegative capacity, efficiencies and charge cap). -/
theorem simulate_soc_step_ebat_mono (cfg : BatteryConfig) (bf bu : Option Int)
    (hcap : 0 ≤ cfg.capacity_wh) (hce : 0 ≤ cfg.charge_efficiency)
    (hde : 0 ≤ cfg.discharge_efficiency) (hmc : 0 ≤ cfg.max_charge_wh_per_15min)
    (st1 st2 : SimState) (s : Slot) (h0 : 0 ≤ st1.e_bat) (h12 : st1.e_bat ≤ st2.e_bat) :
    0 ≤ (simulate_soc_step cfg bf bu st1 s).2.e_bat ∧
    (simulate_soc_step cfg bf bu st1 s).2.e_bat ≤
      (simulate_soc_step cfg bf bu st2 s).2.e_bat := by
  by_cases hs : 0 < s.net_energy_wh
  · rw [simulate_soc_step_ebat_surplus cfg bf bu st1 s hs,
      simulate_soc_step_ebat_surplus cfg bf bu st2 s hs]
    have hc : 0 ≤ s.net_energy_wh * cfg.charge_efficiency := mul_nonneg hs.le hce
    constructor <;> (simp only [min_def]; split_ifs <;> linarith)
  · by_cases hb : inBlockWindow bf bu s.time
    · rw [simulate_soc_step_ebat_blocked cfg bf bu st1 s hs hb,
        simulate_soc_step_ebat_blocked cfg bf bu st2 s hs hb]
      exact ⟨h0, h12⟩
    · have hb' : inBlockWindow bf bu s.time = false := Bool.not_eq_true _ ▸ hb
      rw [simulate_soc_step_ebat_deficit cfg bf bu st1 s hs hb',
        simulate_soc_step_ebat_deficit cfg bf bu st2 s hs hb',
        clamped_deficit_eq _ _ _ h0, clamped_deficit_eq _ _ _ (le_trans h0 h12)]
      exact ⟨le_max_right _ 0, max_le_max (by linarith) le_rfl⟩

/-- Pointwise monotonicity of the whole trajectory in the starting clamped
tally. -/
theorem simulate_soc_aux_mono (cfg : BatteryConfig) (bf bu : Option Int)
    (hcap : 0 ≤ cfg.capacity_wh) (hce : 0 ≤ cfg.charge_efficiency)
    (hde : 0 ≤ cfg.discharge_efficiency) (hmc : 0 ≤ cfg.max_charge_wh_per_15min) :
    ∀ (forecast : List Slot) (st1 st2 : SimState), 0 ≤ st1.e_bat → st1.e_bat ≤ st2.e_bat →
      ∀ i, i < forecast.length →
        ((simulate_soc_aux cfg bf bu st1 forecast).getD i dummyPoint).soc_wh ≤
          ((simulate_soc_aux cfg bf bu st2 forecast).getD i dummyPoint).soc_wh := by
  intro forecast
  induction forecast with
  | nil => intro _ _ _ _ i h; simp at h
  | cons s rest ih =>
    intro st1 st2 h0 h12 i h
    cases i with
    | zero =>
      rw [simulate_soc_aux, simulate_soc_aux, List.getD_cons_zero, List.getD_cons_zero,
        (simulate_soc_step_fst cfg bf bu st1 s).2.1,
        (simulate_soc_step_fst cfg bf bu st2 s).2.1]
      exact h12
    | succ j =>
      have hj : j < rest.length := by simpa using h
      have hm := simulate_soc_step_ebat_mono cfg bf bu hcap hce hde hmc st1 st2 s h0 h12
      rw [simulate_soc_aux, simulate_soc_aux, List.getD_cons_succ, List.getD_cons_succ]
      exact ih _ _ hm.1 hm.2 j hj

/-- C10: the clamped simulation is monotone in the starting SOC: for
starting percentages `0 ≤ s1 ≤ s2 ≤ 100` (and physical configuration
parameters), the trajectory from `s2` dominates the trajectory from `s1` in
both `soc_wh` and `soc_percent` at every index/timestamp, for every
forecast and block window. -/
theorem C10_trajectory_monotone_in_starting_soc (cfg : BatteryConfig) (s1 s2 : Rat)
    (forecast : List Slot) (bf bu : Option Int) (i : Nat)
    (hcap : 0 < cfg.capacity_wh) (hce : 0 ≤ cfg.charge_efficiency)
    (hde : 0 ≤ cfg.discharge_efficiency) (hmc : 0 ≤ cfg.max_charge_wh_per_15min)
    (h1 : 0 ≤ s1) (h12 : s1 ≤ s2) (h2 : s2 ≤ 100) (hi : i < forecast.length) :
    ((simulate_soc_rows cfg s1 forecast bf bu).getD i dummyPoint).soc_wh ≤
      ((simulate_soc_rows cfg s2 forecast bf bu).getD i dummyPoint).soc_wh ∧
    ((simulate_soc_rows cfg s1 forecast bf bu).getD i dummyPoint).soc_percent ≤
      ((simulate_soc_rows cfg s2 forecast bf bu).getD i dummyPoint).soc_percent := by
  have hinit0 : 0 ≤ s1 / 100 * cfg.capacity_wh :=
    mul_nonneg (div_nonneg h1 (by norm_num)) hcap.le
  have hinit12 : s1 / 100 * cfg.capacity_wh ≤ s2 / 100 * cfg.capacity_wh :=
    mul_le_mul_of_nonneg_right
      ((div_le_div_iff_of_pos_right (by norm_num)).mpr h12) hcap.le
  have hwh : ((simulate_soc_rows cfg s1 forecast bf bu).getD i dummyPoint).soc_wh ≤
      ((simulate_soc_rows cfg s2 forecast bf bu).getD i dummyPoint).soc_wh := by
    unfold simulate_soc_rows
    exact simulate_soc_aux_mono cfg bf bu hcap.le hce hde hmc forecast _ _
      hinit0 hinit12 i hi
  refine ⟨hwh, ?_⟩
  have hlen1 : i < (simulate_soc_rows cfg s1 forecast bf bu).length := by
    rw [simulate_soc_rows_length]; exact hi
  have hlen2 : i < (simulate_soc_rows cfg s2 forecast bf bu).length := by
    rw [simulate_soc_rows_length]; exact hi
  have hmem1 : (simulate_soc_rows cfg s1 forecast bf bu).getD i dummyPoint ∈
      simulate_soc_rows cfg s1 forecast bf bu := by
    rw [List.getD_eq_getElem _ _ hlen1]; exact List.getElem_mem _
  have hmem2 : (simulate_soc_rows cfg s2 forecast bf bu).getD i dummyPoint ∈
      simulate_soc_rows cfg s2 forecast bf bu := by
    rw [List.getD_eq_getElem _ _ hlen2]; exact List.getElem_mem _
  have hp1 := simulate_soc_aux_percent cfg bf bu forecast _ _ hmem1
  have hp2 := simulate_soc_aux_percent cfg bf bu forecast _ _ hmem2
  rw [hp1, hp2]
  exact mul_le_mul_of_nonneg_right
    ((div_le_div_iff_of_pos_right hcap).mpr hwh) (by norm_num)

/-- Witness for C10: default configuration, starting SOCs 30% and 60%, one
deficit slot. -/
theorem C10_trajectory_monotone_in_starting_soc_witness :
    ((simulate_soc_rows defaultConfig 30 [⟨0, -100⟩] none none).getD 0
        dummyPoint).soc_wh ≤
      ((simulate_soc_rows defaultConfig 60 [⟨0, -100⟩] none none).getD 0
        dummyPoint).soc_wh ∧
    ((simulate_soc_rows defaultConfig 30 [⟨0, -100⟩] none none).getD 0
        dummyPoint).soc_percent ≤
      ((simulate_soc_rows defaultConfig 60 [⟨0, -100⟩] none none).getD 0
        dummyPoint).soc_percent :=
  C10_trajectory_monotone_in_starting_soc defaultConfig 30 60 [⟨0, -100⟩] none none 0
    (by decide) (by decide) (by decide) (by decide) (by decide) (by decide) (by decide)
    (by decide)

/-- C1: under the minimum-SOC-floor policy (modelled from the spec, see
`calculate_decision_v2`), whenever the forecast is non-empty and the tariff
period reports the current time as cheap, discharge is allowed if and only
if the minimum projected SOC over the protected expensive window of the
unconstrained trajectory is at or above the configured floor. -/
theorem C1_cheap_allow_iff_protected_min_at_floor (cfg : BatteryConfig)
    (min_soc soc_percent : Rat) (forecast : List Slot) (now : Int)
    (hne : forecast ≠ [])
    (hch : (get_tariff_periods cfg now).is_cheap_now = true) :
    (calculate_decision_v2 cfg min_soc soc_percent forecast now).1.discharge_allowed = true ↔
      min_soc ≤ min_protected_soc cfg
        (simulate_soc_rows cfg soc_percent forecast none none) := by
  match forecast, hne with
  | f0 :: frest, _ =>
    by_cases hm : min_soc ≤ min_protected_soc cfg
        (simulate_soc_rows cfg soc_percent (f0 :: frest) none none)
    · simp [calculate_decision_v2, hch, hm]
    · simp [calculate_decision_v2, hch, hm]

/-- The spec §8 concrete scenario forecast: 40 hours of zero net energy in
15-minute slots starting Monday 22:00 (minute 1320 of the timeline). -/
def mondayNightZeroForecast : List Slot :=
  (List.range 160).map fun i => { time := 1320 + 15 * (i : Int), net_energy_wh := 0 }

/-- A lower bound below 100 that bounds every trajectory SOC also bounds
the protected-window minimum. -/
theorem min_protected_soc_ge (cfg : BatteryConfig) (traj : List SimPoint) (m : Rat)
    (hm : m ≤ 100) (h : ∀ p ∈ traj, m ≤ p.soc_percent) :
    m ≤ min_protected_soc cfg traj := by
  have hfold : ∀ (xs : List Rat) (x : Rat), m ≤ x → (∀ y ∈ xs, m ≤ y) →
      m ≤ xs.foldl min x := by
    intro xs
    induction xs with
    | nil => intro x hx _; simpa using hx
    | cons y ys ih =>
      intro x hx hall
      simp only [List.foldl_cons]
      exact ih (min x y) (le_min hx (hall y (List.mem_cons_self y ys)))
        fun z hz => hall z (List.mem_cons_of_mem _ hz)
  have h' : ∀ q ∈ (traj.filter fun p => in_protected_window cfg p.time).map
      SimPoint.soc_percent, m ≤ q := by
    intro q hq
    simp only [List.mem_map, List.mem_filter] at hq
    obtain ⟨p, ⟨hp, _⟩, rfl⟩ := hq
    exact h p hp
  unfold min_protected_soc
  cases hx : (traj.filter fun p => in_protected_window cfg p.time).map
      SimPoint.soc_percent with
  | nil => exact hm
  | cons x xs =>
    have hall := hx ▸ h'
    exact hfold xs x (hall x (List.mem_cons_self x xs))
      fun z hz => hall z (List.mem_cons_of_mem _ hz)

/-- On an all-zero forecast the unblocked simulation leaves the battery
untouched: every point records the starting percentage. -/
theorem simulate_soc_aux_zero_net (cfg : BatteryConfig)
    (hmd : 0 ≤ cfg.max_discharge_wh_per_15min) :
    ∀ (forecast : List Slot), (∀ s ∈ forecast, s.net_energy_wh = 0) →
      ∀ (st : SimState), 0 ≤ st.e_bat →
        ∀ p ∈ simulate_soc_aux cfg none none st forecast,
          p.soc_percent = st.e_bat / cfg.capacity_wh * 100 := by
  intro forecast
  induction forecast with
  | nil => intro _ st _ p hp; simp [simulate_soc_aux] at hp
  | cons s rest ih =>
    intro hz st h0 p hp
    have hs0 : s.net_energy_wh = 0 := hz s (List.mem_cons_self s rest)
    have hstep : (simulate_soc_step cfg none none st s).2.e_bat = st.e_bat := by
      rw [simulate_soc_step_ebat_deficit cfg none none st s (by rw [hs0]; exact lt_irrefl 0) rfl]
      rw [hs0, neg_zero, zero_div]
      rw [min_eq_left (le_min hmd (le_max_left _ _))]
      rw [sub_zero, max_eq_right h0]
    rw [simulate_soc_aux] at hp
    rcases List.mem_cons.mp hp with rfl | hp
    · exact (simulate_soc_step_fst cfg none none st s).2.2.1
    · have := ih (fun q hq => hz q (List.mem_cons_of_mem _ hq)) _
        (hstep ▸ h0) p hp
      rw [this, hstep]

/-- Witness for C1: the spec §8 scenario — capacity 10000 Wh, efficiency
0.95, floor 10%, Monday 22:00 (cheap), SOC 50%, 40 hours of zero net
energy — yields `discharge_allowed = true`. -/
theorem C1_cheap_allow_iff_protected_min_at_floor_witness :
    (get_tariff_periods defaultConfig 1320).is_cheap_now = true ∧
    (calculate_decision_v2 defaultConfig 10 50 mondayNightZeroForecast
        1320).1.discharge_allowed = true := by
  have hch : (get_tariff_periods defaultConfig 1320).is_cheap_now = true := by decide
  refine ⟨hch, ?_⟩
  have hne : mondayNightZeroForecast ≠ [] := by
    simp [mondayNightZeroForecast, List.range_succ]
  apply (C1_cheap_allow_iff_protected_min_at_floor defaultConfig 10 50
    mondayNightZeroForecast 1320 hne hch).mpr
  apply min_protected_soc_ge _ _ 10 (by norm_num)
  intro p hp
  unfold simulate_soc_rows at hp
  have hz : ∀ s ∈ mondayNightZeroForecast, s.net_energy_wh = 0 := by
    intro s hs
    simp only [mondayNightZeroForecast, List.mem_map] at hs
    obtain ⟨i, _, rfl⟩ := hs
    rfl
  have h := simulate_soc_aux_zero_net defaultConfig (by norm_num [defaultConfig])
    mondayNightZeroForecast hz _ (by norm_num [defaultConfig]) p hp
  rw [h]
  norm_num [defaultConfig]

end EnergyManagement
